import Mathlib

/-!
Verification development for the Laila chat backend (`src/unnamed/part_000`,
`src/api/chat.js`).  JavaScript values are modelled by the inductive `JSVal`;
duck-typed property access, truthiness, string coercion and `String.trim` are
modelled faithfully after their ECMAScript behaviour on the values the code
manipulates (numbers are modelled as integers; IEEE-754 formatting of
non-integer numbers is out of scope, no claim touches it).

The reply extractor `extractReplyFromResponses`, the completion wrapper
`callResponsesAPI` and the request `handler` are shallow embeddings of the
functions of the same names in `src/unnamed/part_000`.  External effects
(fetch to the embedding endpoint, the Supabase RPC and inserts, the OpenAI
responses endpoint) are modelled as per-request oracles in `Env`, and the
handler additionally reports the ordered list of external calls it performed
and the user message it forwarded to the completion endpoint.
-/

/-- Model of a JavaScript value (the subset the backend manipulates). -/
inductive JSVal where
  | null
  | undefined
  | bool (b : Bool)
  | num (n : Int)
  | str (s : String)
  | arr (elems : List JSVal)
  | obj (fields : List (String × JSVal))

/-- First binding of a key in an object's field list (object literals in the
source never repeat keys). -/
def lookupField : List (String × JSVal) → String → JSVal
  | [], _ => .undefined
  | (k, v) :: rest, key => if k = key then v else lookupField rest key

/-- Property access `v.k` / `v?.k`: `undefined` on anything that is not an
object with the key (the source only dereferences nullish values behind `?.`
or a truthiness guard, so the total model agrees with JS on every reachable
access). -/
def getF : JSVal → String → JSVal
  | .obj fields, k => lookupField fields k
  | _, _ => .undefined

/-- JavaScript truthiness. -/
def truthy : JSVal → Bool
  | .null => false
  | .undefined => false
  | .bool b => b
  | .num n => n ≠ 0
  | .str s => s ≠ ""
  | .arr _ => true
  | .obj _ => true

/-- Model of `Array.isArray`. -/
def isArr : JSVal → Bool
  | .arr _ => true
  | _ => false

/-- Model of `typeof v === "string"`. -/
def isStr : JSVal → Bool
  | .str _ => true
  | _ => false

/-- Model of `v === undefined`. -/
def isUndef : JSVal → Bool
  | .undefined => true
  | _ => false

/-- Index access `v[0]` (and `v?.[0]`, since the nullish cases yield
`undefined` rather than throwing on the guarded accesses the source makes). -/
def jsIndex0 : JSVal → JSVal
  | .arr xs => xs.headD .undefined
  | .str s =>
      match s.data with
      | [] => .undefined
      | c :: _ => .str (String.mk [c])
  | .obj fields => lookupField fields "0"
  | _ => .undefined

mutual

/-- Model of `String(v)` / `v.toString()` (default conversions; integer numbers are
rendered exactly, which covers every value the claims touch). -/
def jsToString : JSVal → String
  | .null => "null"
  | .undefined => "undefined"
  | .bool true => "true"
  | .bool false => "false"
  | .num n => toString n
  | .str s => s
  | .arr xs => String.intercalate "," (jsArrayParts xs)
  | .obj _ => "[object Object]"

/-- Model of the `Array.prototype.toString` pieces: elements joined by a comma, where a
nullish element renders as the empty string. -/
def jsArrayParts : List JSVal → List String
  | [] => []
  | v :: vs =>
      (match v with
       | .null => ""
       | .undefined => ""
       | w => jsToString w) :: jsArrayParts vs

end

/-! ### `String.prototype.trim`, modelled over the character list -/

/-- The whitespace predicate used by the trim model. -/
def isWSC (c : Char) : Bool := c.isWhitespace

/-- Strip trailing whitespace. -/
def trimR (l : List Char) : List Char := (l.reverse.dropWhile isWSC).reverse

/-- Strip leading then trailing whitespace. -/
def trimChars (l : List Char) : List Char := trimR (l.dropWhile isWSC)

/-- Model of `s.trim()`. -/
def jsTrim (s : String) : String := String.mk (trimChars s.data)

theorem dropWhile_isWSC_idem (l : List Char) :
    (l.dropWhile isWSC).dropWhile isWSC = l.dropWhile isWSC := by
  induction l with
  | nil => rfl
  | cons c t ih =>
    cases h : isWSC c with
    | true => simp [List.dropWhile_cons, h, ih]
    | false => simp [List.dropWhile_cons, h]

theorem dropWhile_eq_self_of_head? (l : List Char)
    (h : ∀ c, l.head? = some c → isWSC c = false) : l.dropWhile isWSC = l := by
  cases l with
  | nil => rfl
  | cons c t => simp [List.dropWhile_cons, h c rfl]

theorem head?_of_dropWhile_eq_self (l : List Char) (h : l.dropWhile isWSC = l) :
    ∀ c, l.head? = some c → isWSC c = false := by
  intro a ha
  cases l with
  | nil => cases ha
  | cons c t =>
    have hac : c = a := by
      simpa using ha
    subst hac
    cases hw : isWSC c with
    | false => rfl
    | true =>
      rw [List.dropWhile_cons, hw] at h
      simp only [if_true] at h
      have hlen := (List.dropWhile_sublist (l := t) isWSC).length_le
      rw [h] at hlen
      simp at hlen

/-- The list `trimR l` is an initial segment of `l`, with explicit remainder. -/
theorem trimR_append (l : List Char) :
    trimR l ++ (l.reverse.takeWhile isWSC).reverse = l := by
  unfold trimR
  rw [← List.reverse_append, List.takeWhile_append_dropWhile, List.reverse_reverse]

theorem dropWhile_trimR (l : List Char) (h : l.dropWhile isWSC = l) :
    (trimR l).dropWhile isWSC = trimR l := by
  apply dropWhile_eq_self_of_head?
  intro a ha
  have hpre := trimR_append l
  cases htr : trimR l with
  | nil => rw [htr] at ha; cases ha
  | cons b r =>
    rw [htr] at ha hpre
    have hab : b = a := by simpa using ha
    subst hab
    apply head?_of_dropWhile_eq_self l h
    rw [← hpre]
    rfl

theorem trimR_idem (l : List Char) : trimR (trimR l) = trimR l := by
  unfold trimR
  rw [List.reverse_reverse, dropWhile_isWSC_idem]

theorem trimChars_idem (l : List Char) : trimChars (trimChars l) = trimChars l := by
  unfold trimChars
  rw [dropWhile_trimR _ (dropWhile_isWSC_idem l), trimR_idem]

theorem jsTrim_idem (s : String) : jsTrim (jsTrim s) = jsTrim s :=
  congrArg String.mk (trimChars_idem s.data)

theorem jsTrim_empty : jsTrim "" = "" := by decide

theorem ne_empty_of_jsTrim_ne (s : String) (h : jsTrim s ≠ "") : s ≠ "" := by
  intro hs
  subst hs
  exact h jsTrim_empty

/-! ### The reply extractor (`extractReplyFromResponses`, part_000 lines 47-65)

The single JS function is split into one Lean definition per payload shape,
composed in the source's order; each definition mirrors its lines verbatim. -/

/-- Line 49: `typeof data.output_text === "string" && data.output_text.trim()`. -/
def extractOutputText (data : JSVal) : Option String :=
  match getF data "output_text" with
  | .str s => if jsTrim s = "" then none else some (jsTrim s)
  | _ => none

/-- Line 53 guard: `c?.type === "output_text" && typeof c?.text === "string" && c.text.trim()`. -/
def taggedBlockText (c : JSVal) : Option String :=
  match getF c "type", getF c "text" with
  | .str ty, .str t =>
      if ty = "output_text" then (if jsTrim t = "" then none else some (jsTrim t)) else none
  | _, _ => none

/-- Line 56 guard: `typeof c?.text === "string" && c.text.trim()`. -/
def anyBlockText (c : JSVal) : Option String :=
  match getF c "text" with
  | .str t => if jsTrim t = "" then none else some (jsTrim t)
  | _ => none

/-- Lines 50-58: `data.output?.[0]`, the `Array.isArray(out0.content)` guard and
the two sequential scans over the content blocks. -/
def extractOutputBlocks (data : JSVal) : Option String :=
  match getF (jsIndex0 (getF data "output")) "content" with
  | .arr blocks =>
      match blocks.findSome? taggedBlockText with
      | some r => some r
      | none => blocks.findSome? anyBlockText
  | _ => none

/-- Line 62: `if (msg?.text) return String(msg.text).trim()`. -/
def choicesTextField (msg : JSVal) : Option String :=
  if truthy (getF msg "text") then some (jsTrim (jsToString (getF msg "text"))) else none

/-- Lines 59-63: the legacy `choices[0].message.content` shape. -/
def extractChoices (data : JSVal) : Option String :=
  match getF data "choices" with
  | .arr choices =>
      let msg := getF (getF (jsIndex0 (.arr choices)) "message") "content"
      if truthy msg then
        match msg with
        | .str s => if jsTrim s = "" then choicesTextField msg else some (jsTrim s)
        | _ => choicesTextField msg
      else none
  | _ => none

/-- Lines 47-65: `extractReplyFromResponses(data)`; `none` models the JS
`null` ("absent") result. -/
def extractReplyFromResponses (data : JSVal) : Option String :=
  if truthy data then
    match extractOutputText data with
    | some r => some r
    | none =>
      match extractOutputBlocks data with
      | some r => some r
      | none => extractChoices data
  else none

example : extractReplyFromResponses (.obj [("output_text", .str "  olá ")]) = some "olá" := by decide
example : extractReplyFromResponses .null = none := by decide
example : extractReplyFromResponses (.obj []) = none := by decide
example :
    extractReplyFromResponses
      (.obj [("choices", .arr [.obj [("message", .obj [("content", .str " oi ")])]])]) =
    some "oi" := by decide
example :
    extractReplyFromResponses
      (.obj [("output", .arr [.obj [("content",
        .arr [.obj [("type", .str "reasoning"), ("text", .str "")],
              .obj [("type", .str "output_text"), ("text", .str " x ")]])]])]) =
    some "x" := by decide
example :
    extractReplyFromResponses
      (.obj [("choices", .arr [.obj [("message", .obj [("content", .obj [("text", .str "  ")])])]])]) =
    some "" := by decide

/-! ### Every extractor branch returns a trimmed string -/

theorem extractOutputText_trimmed (d : JSVal) (r : String)
    (h : extractOutputText d = some r) : ∃ t, r = jsTrim t := by
  unfold extractOutputText at h
  split at h
  · split at h
    · cases h
    · exact ⟨_, (Option.some.inj h).symm⟩
  · cases h

theorem taggedBlockText_trimmed (c : JSVal) (r : String)
    (h : taggedBlockText c = some r) : ∃ t, r = jsTrim t := by
  unfold taggedBlockText at h
  split at h
  · split at h
    · split at h
      · cases h
      · exact ⟨_, (Option.some.inj h).symm⟩
    · cases h
  · cases h

theorem anyBlockText_trimmed (c : JSVal) (r : String)
    (h : anyBlockText c = some r) : ∃ t, r = jsTrim t := by
  unfold anyBlockText at h
  split at h
  · split at h
    · cases h
    · exact ⟨_, (Option.some.inj h).symm⟩
  · cases h

theorem extractOutputBlocks_trimmed (d : JSVal) (r : String)
    (h : extractOutputBlocks d = some r) : ∃ t, r = jsTrim t := by
  unfold extractOutputBlocks at h
  split at h
  case _ blocks heq =>
    split at h
    case _ r' hfind =>
      obtain ⟨c, _, hc⟩ := List.exists_of_findSome?_eq_some hfind
      cases h
      exact taggedBlockText_trimmed c r hc
    case _ hfind =>
      obtain ⟨c, _, hc⟩ := List.exists_of_findSome?_eq_some h
      exact anyBlockText_trimmed c r hc
  · cases h

theorem choicesTextField_trimmed (msg : JSVal) (r : String)
    (h : choicesTextField msg = some r) : ∃ t, r = jsTrim t := by
  unfold choicesTextField at h
  split at h
  · exact ⟨_, (Option.some.inj h).symm⟩
  · cases h

theorem extractChoices_trimmed (d : JSVal) (r : String)
    (h : extractChoices d = some r) : ∃ t, r = jsTrim t := by
  unfold extractChoices at h
  split at h
  case _ choices heq =>
    dsimp only at h
    split at h
    · split at h
      · split at h
        · exact choicesTextField_trimmed _ r h
        · exact ⟨_, (Option.some.inj h).symm⟩
      · exact choicesTextField_trimmed _ r h
    · cases h
  · cases h

theorem extractReplyFromResponses_trimmed (d : JSVal) (r : String)
    (h : extractReplyFromResponses d = some r) : ∃ t, r = jsTrim t := by
  unfold extractReplyFromResponses at h
  split at h
  · split at h
    case _ hs1 => exact extractOutputText_trimmed d r (by rw [hs1]; exact h)
    case _ =>
      split at h
      case _ hs2 => exact extractOutputBlocks_trimmed d r (by rw [hs2]; exact h)
      case _ => exact extractChoices_trimmed d r h
  · cases h

/-- Claim C9: whenever the reply extractor returns a string rather than the
absent marker, that string equals its own whitespace-trimmed form, on every
branch including the structured-choices text-field fallback. -/
theorem claim9_extracted_reply_is_trimmed (payload : JSVal) (s : String)
    (h : extractReplyFromResponses payload = some s) : jsTrim s = s := by
  obtain ⟨t, rfl⟩ := extractReplyFromResponses_trimmed payload s h
  exact jsTrim_idem t

/-- Witness for C9 at a concrete payload whose reply needed trimming. -/
theorem claim9_witness : jsTrim "olá" = "olá" :=
  claim9_extracted_reply_is_trimmed (.obj [("output_text", .str "  olá ")]) "olá" (by decide)

/-! ### Payload constructor families (the spec's `make_*_payload` shapes) -/

/-- Spec shape 1: a payload whose whole reply is the top-level `output_text` field. -/
def mkOutputTextPayload (m : String) : JSVal := .obj [("output_text", .str m)]

/-- Spec shape 2: one `output` item whose `content` is one typed block. -/
def mkOutputBlocksPayload (tag m : String) : JSVal :=
  .obj [("output", .arr [.obj [("content", .arr [.obj [("type", .str tag), ("text", .str m)]])]])]

/-- Spec shape 3 (legacy): first choice's message content is the string `m`. -/
def mkChoicesPayload (m : String) : JSVal :=
  .obj [("choices", .arr [.obj [("message", .obj [("content", .str m)])]])]

/-- Spec shape 3 variant: first choice's message content is a structured
object exposing a `text` field. -/
def mkChoicesTextObjPayload (t : String) : JSVal :=
  .obj [("choices", .arr [.obj [("message", .obj [("content", .obj [("text", .str t)])])]])]

/-- Claim C1: on any payload carrying a non-blank top-level `output_text`
string, extraction returns the trimmed `output_text` value and never the text
the choices shape of the same payload would give. -/
theorem claim1_output_text_wins (payload : JSVal) (s t : String)
    (hs : getF payload "output_text" = .str s) (hns : jsTrim s ≠ "")
    (hc : extractChoices payload = some t) (hne : t ≠ jsTrim s) :
    extractReplyFromResponses payload = some (jsTrim s) ∧
    extractReplyFromResponses payload ≠ some t := by
  have htr : truthy payload = true := by
    cases payload <;> first | rfl | simp [getF] at hs
  have h1 : extractOutputText payload = some (jsTrim s) := by
    unfold extractOutputText
    rw [hs]
    simp [hns]
  have hmain : extractReplyFromResponses payload = some (jsTrim s) := by
    unfold extractReplyFromResponses
    rw [htr, h1]
    simp
  refine ⟨hmain, ?_⟩
  rw [hmain]
  intro hcontra
  exact hne (Option.some.inj hcontra).symm

/-- Witness for C1: `output_text` "A" beats a choices text "B". -/
theorem claim1_witness :
    extractReplyFromResponses
      (.obj [("output_text", .str " A "),
             ("choices", .arr [.obj [("message", .obj [("content", .str "B")])]])]) =
      some "A" :=
  (claim1_output_text_wins
    (.obj [("output_text", .str " A "),
           ("choices", .arr [.obj [("message", .obj [("content", .str "B")])]])])
    " A " "B" rfl (by decide) (by decide) (by decide)).1

/-- Claim C2 counterexample: a choices message whose structured content has a
whitespace-only (but non-empty, hence truthy) `text` field makes the extractor
return the empty string, not the absent marker. -/
theorem claim2_counterexample :
    extractReplyFromResponses (mkChoicesTextObjPayload " ") ≠ none ∧
    extractReplyFromResponses (mkChoicesTextObjPayload " ") = some "" := by
  decide

/-- Claim C2 as amended: the extractor returns the absent marker for `null`,
`{}`, and blank-only payloads of the `output_text`, output-blocks and
string-content choices shapes, and for a structured choices content whose
`text` field is the empty string; but when that `text` field is a non-empty
whitespace-only string it returns the empty string instead (which the
orchestrator's `|| null` coercion then reports as a null reply). -/
theorem claim2_amended_blank_payloads_absent :
    extractReplyFromResponses .null = none ∧
    extractReplyFromResponses (.obj []) = none ∧
    (∀ s, jsTrim s = "" → extractReplyFromResponses (mkOutputTextPayload s) = none) ∧
    (∀ tag s, jsTrim s = "" → extractReplyFromResponses (mkOutputBlocksPayload tag s) = none) ∧
    (∀ s, jsTrim s = "" → extractReplyFromResponses (mkChoicesPayload s) = none) ∧
    (∀ s, jsTrim s = "" →
      extractReplyFromResponses (mkChoicesTextObjPayload s) = if s = "" then none else some "") := by
  refine ⟨rfl, rfl, ?_, ?_, ?_, ?_⟩
  · intro s hs
    simp [extractReplyFromResponses, extractOutputText, extractOutputBlocks, extractChoices,
      mkOutputTextPayload, getF, lookupField, truthy, jsIndex0, hs]
  · intro tag s hs
    simp [extractReplyFromResponses, extractOutputText, extractOutputBlocks, extractChoices,
      taggedBlockText, anyBlockText, mkOutputBlocksPayload, getF, lookupField, truthy,
      jsIndex0, hs]
  · intro s hs
    by_cases hse : s = ""
    · subst hse
      rfl
    · simp [extractReplyFromResponses, extractOutputText, extractOutputBlocks, extractChoices,
        choicesTextField, mkChoicesPayload, getF, lookupField, truthy, jsIndex0, hs, hse]
  · intro s hs
    by_cases hse : s = ""
    · subst hse
      rfl
    · simp only [if_neg hse]
      simp [extractReplyFromResponses, extractOutputText, extractOutputBlocks, extractChoices,
        choicesTextField, mkChoicesTextObjPayload, getF, lookupField, truthy, jsIndex0,
        jsToString, hs, hse]

/-- Witness for the amended C2 at concrete blank inputs. -/
theorem claim2_witness :
    extractReplyFromResponses (mkOutputTextPayload "  ") = none ∧
    extractReplyFromResponses (mkChoicesPayload " ") = none ∧
    extractReplyFromResponses (mkChoicesTextObjPayload "") = none :=
  ⟨claim2_amended_blank_payloads_absent.2.2.1 "  " (by decide),
   claim2_amended_blank_payloads_absent.2.2.2.2.1 " " (by decide),
   by
     have h := claim2_amended_blank_payloads_absent.2.2.2.2.2 "" (by decide)
     simpa using h⟩

/-- Claim C4 counterexample: a first choice whose structured message content
exposes a `text` field holding the empty string makes the extractor return the
absent marker, not the trimmed field value `""` the claim demands. -/
theorem claim4_counterexample :
    extractReplyFromResponses (mkChoicesTextObjPayload "") = none ∧
    extractReplyFromResponses (mkChoicesTextObjPayload "") ≠ some (jsTrim "") := by
  decide

/-- Claim C4 as amended: for every non-blank `m` the string-content choices
payload extracts to `m` trimmed, and a structured message content whose `text`
field holds a non-empty string extracts to that value trimmed (the empty
string, being falsy, yields the absent marker instead). -/
theorem claim4_amended_choices_shape :
    (∀ m, jsTrim m ≠ "" → extractReplyFromResponses (mkChoicesPayload m) = some (jsTrim m)) ∧
    (∀ t, t ≠ "" → extractReplyFromResponses (mkChoicesTextObjPayload t) = some (jsTrim t)) := by
  constructor
  · intro m hm
    have hne : m ≠ "" := ne_empty_of_jsTrim_ne m hm
    simp [extractReplyFromResponses, extractOutputText, extractOutputBlocks, extractChoices,
      mkChoicesPayload, getF, lookupField, truthy, jsIndex0, hm, hne]
  · intro t ht
    simp [extractReplyFromResponses, extractOutputText, extractOutputBlocks, extractChoices,
      choicesTextField, mkChoicesTextObjPayload, getF, lookupField, truthy, jsIndex0,
      jsToString, ht]

/-- Witness for the amended C4 at concrete inputs. -/
theorem claim4_witness :
    extractReplyFromResponses (mkChoicesPayload " Avalie os riscos antes. ") =
      some "Avalie os riscos antes." ∧
    extractReplyFromResponses (mkChoicesTextObjPayload " ok ") = some "ok" := by
  constructor
  · have h := claim4_amended_choices_shape.1 " Avalie os riscos antes. " (by decide)
    simpa using h
  · have h := claim4_amended_choices_shape.2 " ok " (by decide)
    simpa using h

/-! ### Spec-side characterization of the output-blocks scans (for C3) -/

/-- The spec's "block whose type tag marks it as output text and whose text
field is non-blank". -/
def isTaggedNonBlank (c : JSVal) : Bool :=
  match getF c "type", getF c "text" with
  | .str ty, .str t => ty == "output_text" && !(jsTrim t == "")
  | _, _ => false

/-- The spec's "block that has any non-blank text field". -/
def hasNonBlankText (c : JSVal) : Bool :=
  match getF c "text" with
  | .str t => !(jsTrim t == "")
  | _ => false

/-- The trimmed `text` field of a block, when it is a string. -/
def blockTrimmedText (c : JSVal) : Option String :=
  match getF c "text" with
  | .str t => some (jsTrim t)
  | _ => none

/-- A guarded scan (`findSome?`) is the first match of its guard (`find?`)
mapped through the result function. -/
theorem findSome?_eq_find?_bind {α β : Type} (f : α → Option β) (p : α → Bool) (g : α → Option β)
    (hpos : ∀ c, p c = true → f c = g c ∧ (g c).isSome = true)
    (hneg : ∀ c, p c = false → f c = none) :
    ∀ l : List α, l.findSome? f = (l.find? p).bind g := by
  intro l
  induction l with
  | nil => rfl
  | cons a t ih =>
    cases hp : p a with
    | true =>
      obtain ⟨hfg, hsome⟩ := hpos a hp
      obtain ⟨b, hb⟩ := Option.isSome_iff_exists.mp hsome
      rw [List.findSome?_cons, List.find?_cons, hp, hfg]
      simp [hb]
    | false =>
      rw [List.findSome?_cons, List.find?_cons, hp, hneg a hp, ih]


theorem taggedBlockText_char (c : JSVal) :
    taggedBlockText c = if isTaggedNonBlank c then blockTrimmedText c else none := by
  unfold taggedBlockText isTaggedNonBlank blockTrimmedText
  cases getF c "type" <;> cases getF c "text" <;>
    first
      | rfl
      | (rename_i ty t
         by_cases h1 : ty = "output_text" <;> by_cases h2 : jsTrim t = "" <;> simp [h1, h2])

theorem anyBlockText_char (c : JSVal) :
    anyBlockText c = if hasNonBlankText c then blockTrimmedText c else none := by
  unfold anyBlockText hasNonBlankText blockTrimmedText
  cases getF c "text" <;>
    first
      | rfl
      | (rename_i t
         by_cases h2 : jsTrim t = "" <;> simp [h2])

theorem blockTrimmedText_isSome_of_tagged (c : JSVal) (h : isTaggedNonBlank c = true) :
    (blockTrimmedText c).isSome = true := by
  unfold isTaggedNonBlank at h
  unfold blockTrimmedText
  cases hty : getF c "type" <;> rw [hty] at h <;>
    cases htx : getF c "text" <;> rw [htx] at h <;> simp at h ⊢

theorem blockTrimmedText_isSome_of_hasText (c : JSVal) (h : hasNonBlankText c = true) :
    (blockTrimmedText c).isSome = true := by
  unfold hasNonBlankText at h
  unfold blockTrimmedText
  cases htx : getF c "text" <;> rw [htx] at h <;> simp at h ⊢

theorem findSome?_tagged_eq (blocks : List JSVal) :
    blocks.findSome? taggedBlockText = (blocks.find? isTaggedNonBlank).bind blockTrimmedText := by
  apply findSome?_eq_find?_bind
  · intro c hc
    refine ⟨?_, blockTrimmedText_isSome_of_tagged c hc⟩
    rw [taggedBlockText_char, if_pos hc]
  · intro c hc
    rw [taggedBlockText_char, if_neg]
    rw [hc]
    exact Bool.false_ne_true

theorem findSome?_anyText_eq (blocks : List JSVal) :
    blocks.findSome? anyBlockText = (blocks.find? hasNonBlankText).bind blockTrimmedText := by
  apply findSome?_eq_find?_bind
  · intro c hc
    refine ⟨?_, blockTrimmedText_isSome_of_hasText c hc⟩
    rw [anyBlockText_char, if_pos hc]
  · intro c hc
    rw [anyBlockText_char, if_neg]
    rw [hc]
    exact Bool.false_ne_true

/-- Claim C3: on a payload with a top-level `output` list (and no usable
`output_text` field, per the fixed priority order), only the first output item
is considered; when its `content` is a block list, extraction returns the
trimmed text of the first block tagged `output_text` with non-blank text, falls
back to the first block with any non-blank text only when no tagged block
exists, and otherwise moves on to the legacy choices shape. -/
theorem claim3_output_blocks_scan (data o0 : JSVal) (rest blocks : List JSVal)
    (hout : getF data "output" = .arr (o0 :: rest))
    (hcont : getF o0 "content" = .arr blocks)
    (h1 : extractOutputText data = none) :
    (∀ b, blocks.find? isTaggedNonBlank = some b →
        extractReplyFromResponses data = blockTrimmedText b) ∧
    (blocks.find? isTaggedNonBlank = none →
      ∀ b, blocks.find? hasNonBlankText = some b →
        extractReplyFromResponses data = blockTrimmedText b) ∧
    (blocks.find? isTaggedNonBlank = none → blocks.find? hasNonBlankText = none →
      extractReplyFromResponses data = extractChoices data) := by
  have htr : truthy data = true := by
    cases data <;> first | rfl | simp [getF] at hout
  have hmain : extractReplyFromResponses data =
      match extractOutputBlocks data with
      | some r => some r
      | none => extractChoices data := by
    unfold extractReplyFromResponses
    rw [htr, h1]
    simp
  have hblocks : extractOutputBlocks data =
      match (blocks.find? isTaggedNonBlank).bind blockTrimmedText with
      | some r => some r
      | none => (blocks.find? hasNonBlankText).bind blockTrimmedText := by
    unfold extractOutputBlocks
    rw [hout]
    simp only [jsIndex0, List.headD]
    rw [hcont]
    dsimp only
    rw [findSome?_tagged_eq, findSome?_anyText_eq]
  refine ⟨?_, ?_, ?_⟩
  · intro b hfind
    have hsome := blockTrimmedText_isSome_of_tagged b (List.find?_some hfind)
    obtain ⟨r, hr⟩ := Option.isSome_iff_exists.mp hsome
    rw [hmain, hblocks, hfind]
    simp [hr]
  · intro hnone b hfind
    have hsome := blockTrimmedText_isSome_of_hasText b (List.find?_some hfind)
    obtain ⟨r, hr⟩ := Option.isSome_iff_exists.mp hsome
    rw [hmain, hblocks, hnone, hfind]
    simp [hr]
  · intro hnone1 hnone2
    rw [hmain, hblocks, hnone1, hnone2]
    rfl

/-- Witness for C3 at a concrete tagged-block payload. -/
theorem claim3_witness :
    extractReplyFromResponses (mkOutputBlocksPayload "output_text" " x ") = some "x" := by
  rw [(claim3_output_blocks_scan (mkOutputBlocksPayload "output_text" " x ")
      (.obj [("content", .arr [.obj [("type", .str "output_text"), ("text", .str " x ")]])])
      [] [.obj [("type", .str "output_text"), ("text", .str " x ")]]
      rfl rfl rfl).1
      (.obj [("type", .str "output_text"), ("text", .str " x ")]) rfl]
  decide

/-! ### The orchestrator (`handler`, part_000 lines 82-206)

External collaborators are modelled as per-request outcome oracles: `embed`
is the outcome of `createEmbedding(message)` (lines 30-45), `rpc` of
`supabase.rpc("match_memories", ...)` (line 111), `restRpc` of the REST
fallback fetch (lines 123-135, `.ok none` = non-ok HTTP status, `.ok (some j)`
= ok with JSON `j`), `completionFetch` of the fetch inside `callResponsesAPI`
(`.error` = network failure, `body = none` = `r.json()` threw), `audit` of the
`MSG_TABLE` insert (line 175) and `memInsert` of the `MEMORY_TABLE` insert
(line 190, whose value is the `insertResp` the code checks for `.error`).
The handler reports the ordered list of oracle calls it made and the user
message it forwarded to the completion endpoint; the system-prompt string
(lines 147-165) and the inserted row contents are consumed by the oracles
and no response field depends on them. -/

/-- Outcome of a fetch whose body may or may not parse as JSON. -/
structure FetchOut where
  ok : Bool
  body : Option JSVal

/-- Per-request outcomes of the external collaborators. -/
structure Env where
  openaiKey : Bool
  supabaseConfigured : Bool
  embed : Except String JSVal
  rpc : Except String JSVal
  restRpc : Except String (Option JSVal)
  completionFetch : Except String FetchOut
  audit : Except String Unit
  memInsert : Except String JSVal

/-- An inbound HTTP request. -/
structure Req where
  method : String
  body : JSVal

/-- An outbound HTTP response. -/
structure HResp where
  status : Nat
  body : JSVal

/-- The external calls the handler can perform, in order of appearance. -/
inductive ExtCall where
  | embed
  | rpc
  | restRpc
  | completion
  | audit
  | memInsert
deriving DecidableEq

/-- The handler's observable outcome: response, ordered external calls, and
the user message forwarded to the completion endpoint (if it was called). -/
structure HandlerOut where
  resp : HResp
  calls : List ExtCall
  sentUser : Option String

/-- Model of the `(v || dflt).toString()` coercion used on lines 90-91. -/
def coerceOr (v : JSVal) (dflt : String) : String :=
  if truthy v then jsToString v else dflt

/-- Line 89: `const body = req.body || {}`. -/
def reqBody (req : Req) : JSVal := if truthy req.body then req.body else .obj []

/-- Line 90: `const message = (body.message || "").toString()`. -/
def reqMessage (req : Req) : String := coerceOr (getF (reqBody req) "message") ""

/-- Lines 67-78 `callResponsesAPI`: the body is parsed with `r.json()` without
ever consulting `r.ok`, so only a network failure or an unparsable body
throws; an error-status response with a JSON body is returned as a payload. -/
def callResponsesAPI (env : Env) : Except String JSVal :=
  match env.completionFetch with
  | .error e => .error e
  | .ok r =>
    match r.body with
    | some j => .ok j
    | none => .error "invalid json"

/-- Lines 117-119: normalisation of the RPC result into `memories` (`prev` is
the value `memories` held before the assignment, `[]` at this point). -/
def normalizeRpc (prev v : JSVal) : JSVal :=
  if truthy (getF v "data") then getF v "data"
  else if isArr v then v
  else if truthy v then v
  else prev

/-- Lines 102-145: embedding plus top-K memory retrieval; every failure is
swallowed (`console.warn` + continue).  Returns the final `memories` value,
the final `embedding` value, and the external calls made. -/
def retrieveStep (env : Env) : JSVal × JSVal × List ExtCall :=
  if env.supabaseConfigured then
    match env.embed with
    | .error _ => (.arr [], .null, [.embed])
    | .ok emb =>
      if truthy emb then
        match env.rpc with
        | .ok v => (normalizeRpc (.arr []) v, emb, [.embed, .rpc])
        | .error _ =>
          match env.restRpc with
          | .ok (some j) => (j, emb, [.embed, .rpc, .restRpc])
          | .ok none => (.arr [], emb, [.embed, .rpc, .restRpc])
          | .error _ => (.arr [], emb, [.embed, .rpc, .restRpc])
      else (.arr [], emb, [.embed])
  else (.arr [], .null, [])

/-- Line 199: `Array.isArray(memories) ? memories.length : 0`. -/
def arrCount : JSVal → Int
  | .arr xs => xs.length
  | _ => 0

/-- Lines 82-206: the request handler. -/
def handler (env : Env) (req : Req) : HandlerOut :=
  if req.method ≠ "POST" then
    ⟨⟨405, .obj [("error", .str "Method not allowed")]⟩, [], none⟩
  else
    let message := reqMessage req
    let persist :=
      if isUndef (getF (reqBody req) "persist") then true
      else truthy (getF (reqBody req) "persist")
    if message = "" ∨ jsTrim message = "" then
      ⟨⟨400, .obj [("error", .str "Empty message")]⟩, [], none⟩
    else if !env.openaiKey then
      ⟨⟨500, .obj [("error", .str "OpenAI key not configured")]⟩, [], none⟩
    else
      let rs := retrieveStep env
      match callResponsesAPI env with
      | .error e =>
        ⟨⟨500, .obj [("error", .str "Server error"), ("detail", .str e)]⟩,
          rs.2.2 ++ [.completion], some message⟩
      | .ok payload =>
        let reply : JSVal :=
          match extractReplyFromResponses payload with
          | some s => if s = "" then .null else .str s
          | none => .null
        let auditStep : Bool × List ExtCall :=
          if env.supabaseConfigured then
            match env.audit with
            | .ok _ => (true, [.audit])
            | .error _ => (false, [.audit])
          else (false, [])
        let memStep : Bool × List ExtCall :=
          if persist && env.supabaseConfigured && truthy rs.2.1 then
            match env.memInsert with
            | .ok resp => (!truthy (getF resp "error"), [.memInsert])
            | .error _ => (false, [.memInsert])
          else (false, [])
        ⟨⟨200, .obj [("reply", reply),
                     ("retrieved_count", .num (arrCount rs.1)),
                     ("memory_saved", .bool memStep.1),
                     ("audit_saved", .bool auditStep.1)]⟩,
          rs.2.2 ++ [.completion] ++ auditStep.2 ++ memStep.2,
          some message⟩

example :
    (handler
      ⟨true, false, .error "u", .error "u", .error "u",
       .ok ⟨true, some (.obj [("output_text", .str "Olá! Como posso ajudar?")])⟩,
       .error "u", .error "u"⟩
      ⟨"POST", .obj [("message", .str "oi")]⟩).resp.status = 200 := by decide

theorem not_validation_cond (m : String) (h : jsTrim m ≠ "") :
    ¬(m = "" ∨ jsTrim m = "") := by
  rintro (h1 | h2)
  · exact h (by rw [h1]; exact jsTrim_empty)
  · exact h h2

theorem retrieveStep_calls_sub (env : Env) :
    (retrieveStep env).2.2 ⊆ [ExtCall.embed, ExtCall.rpc, ExtCall.restRpc] := by
  unfold retrieveStep
  split
  · split
    · simp
    · split
      · split
        · simp
        · split <;> simp
      · simp
  · simp

theorem arrCount_zero_of_not_arr (v : JSVal) (h : isArr v = false) : arrCount v = 0 := by
  cases v <;> first | rfl | (exact absurd h (by simp [isArr]))

/-- The claim's "similarity query fails": the RPC throws and the REST fallback
delivers nothing usable, or the RPC returns a value that normalises to a
non-array `memories`. -/
def rpcYieldsNoList (env : Env) : Prop :=
  match env.rpc with
  | .error _ =>
    match env.restRpc with
    | .ok none => True
    | .error _ => True
    | .ok (some j) => isArr j = false
  | .ok v => isArr (normalizeRpc (.arr []) v) = false

theorem retrieveStep_count_zero (env : Env) (hfail : rpcYieldsNoList env) :
    arrCount (retrieveStep env).1 = 0 := by
  unfold rpcYieldsNoList at hfail
  unfold retrieveStep
  split
  · split
    · rfl
    · split
      · split
        case _ v hrpc =>
          rw [hrpc] at hfail
          exact arrCount_zero_of_not_arr _ hfail
        case _ e hrpc =>
          rw [hrpc] at hfail
          split
          case _ j hrest =>
            rw [hrest] at hfail
            exact arrCount_zero_of_not_arr _ hfail
          case _ => rfl
          case _ => rfl
      · rfl
  · rfl

/-- Claim C7: a POST request whose message is empty, missing or
whitespace-only is rejected with 400 before any external call is made. -/
theorem claim7_blank_message_rejected (env : Env) (req : Req)
    (hm : req.method = "POST")
    (hblank : jsTrim (reqMessage req) = "") :
    (handler env req).resp.status = 400 ∧ (handler env req).calls = [] := by
  unfold handler
  rw [hm, if_neg (by simp)]
  dsimp only
  rw [if_pos (Or.inr hblank)]
  exact ⟨rfl, rfl⟩

/-- Witness for C7 at a whitespace-only message. -/
theorem claim7_witness :
    (handler ⟨true, false, .error "u", .error "u", .error "u", .error "u", .error "u",
        .error "u"⟩
      ⟨"POST", .obj [("message", .str "   ")]⟩).resp.status = 400 ∧
    (handler ⟨true, false, .error "u", .error "u", .error "u", .error "u", .error "u",
        .error "u"⟩
      ⟨"POST", .obj [("message", .str "   ")]⟩).calls = [] :=
  claim7_blank_message_rejected _ _ rfl (by decide)

/-- A request POSTing the message "oi". -/
def reqOi : Req := ⟨"POST", .obj [("message", .str "oi")]⟩

/-- Environment where the generation provider answers a non-success HTTP
status whose body is still valid JSON (an OpenAI-style error object), with a
configured memory store and successful inserts. -/
def envErrorBody : Env :=
  ⟨true, true, .ok (.arr [.num 1]), .ok (.obj [("data", .arr [])]), .ok none,
   .ok ⟨false, some (.obj [("error", .obj [("message", .str "Rate limit exceeded")])])⟩,
   .ok (), .ok (.obj [])⟩

/-- Claim C5 counterexample: when the provider "returns an error rather than
a usable response payload" as a non-success status with a JSON body,
`callResponsesAPI` does not throw (it never reads `r.ok`), so the handler
answers 200, the persistence step still runs, and `memory_saved` is true —
not a server error with no persistence. -/
theorem claim5_counterexample :
    envErrorBody.completionFetch =
      .ok ⟨false, some (.obj [("error", .obj [("message", .str "Rate limit exceeded")])])⟩ ∧
    callResponsesAPI envErrorBody =
      .ok (.obj [("error", .obj [("message", .str "Rate limit exceeded")])]) ∧
    (handler envErrorBody reqOi).resp.status = 200 ∧
    ExtCall.memInsert ∈ (handler envErrorBody reqOi).calls ∧
    getF (handler envErrorBody reqOi).resp.body "memory_saved" = .bool true := by
  refine ⟨rfl, rfl, rfl, ?_, rfl⟩
  decide

/-- Claim C5 as amended: when the completion call itself throws — the provider
is unreachable or its response body is not parseable JSON, the only failures
`callResponsesAPI` can raise — the handler returns a 500 server error, the
persistence insert is never attempted, and the error body carries no
`memory_saved` field (so it is never reported true). -/
theorem claim5_amended_completion_throw_fatal (env : Env) (req : Req)
    (hm : req.method = "POST")
    (hmsg : jsTrim (reqMessage req) ≠ "")
    (hkey : env.openaiKey = true)
    (e : String) (hc : callResponsesAPI env = .error e) :
    (handler env req).resp.status = 500 ∧
    ExtCall.memInsert ∉ (handler env req).calls ∧
    getF (handler env req).resp.body "memory_saved" = .undefined := by
  unfold handler
  rw [hm, if_neg (by simp)]
  dsimp only
  rw [if_neg (not_validation_cond _ hmsg), hkey, if_neg (by simp), hc]
  refine ⟨rfl, ?_, rfl⟩
  intro hmem
  rcases List.mem_append.mp hmem with h | h
  · have := retrieveStep_calls_sub env h
    simp at this
  · simp at h

/-- Environment where the provider is unreachable. -/
def envNetDown : Env :=
  ⟨true, false, .error "u", .error "u", .error "u", .error "ECONNREFUSED",
   .error "u", .error "u"⟩

/-- Witness for the amended C5 at a concrete unreachable provider. -/
theorem claim5_witness :
    (handler envNetDown reqOi).resp.status = 500 ∧
    ExtCall.memInsert ∉ (handler envNetDown reqOi).calls ∧
    getF (handler envNetDown reqOi).resp.body "memory_saved" = .undefined :=
  claim5_amended_completion_throw_fatal envNetDown reqOi rfl (by decide) rfl
    "ECONNREFUSED" rfl

/-- Environment with no memory store whose provider returns a payload with no
extractable text. -/
def envNoText : Env :=
  ⟨true, false, .error "unused", .error "unused", .error "unused",
   .ok ⟨true, some (.obj [("weird", .str "shape")])⟩, .error "unused", .error "unused"⟩

/-- Claim C6 counterexample: on a successful completion whose payload has no
extractable text, the handler answers 200 with a null reply but attaches no
`debug` field at all — the raw payload is not part of the response. -/
theorem claim6_counterexample :
    extractReplyFromResponses (.obj [("weird", .str "shape")]) = none ∧
    (handler envNoText reqOi).resp.status = 200 ∧
    getF (handler envNoText reqOi).resp.body "reply" = .null ∧
    getF (handler envNoText reqOi).resp.body "debug" = .undefined :=
  ⟨rfl, rfl, rfl, rfl⟩

/-- Claim C6 as amended: when the completion call succeeds but extraction
yields absent, the handler responds with success 200 and a null reply — not an
error — but no `debug` field carries the raw payload (the payload is only
folded into the audit row when a store is configured). -/
theorem claim6_amended_absent_is_success (env : Env) (req : Req)
    (hm : req.method = "POST")
    (hmsg : jsTrim (reqMessage req) ≠ "")
    (hkey : env.openaiKey = true)
    (p : JSVal) (hc : callResponsesAPI env = .ok p)
    (hext : extractReplyFromResponses p = none) :
    (handler env req).resp.status = 200 ∧
    getF (handler env req).resp.body "reply" = .null ∧
    getF (handler env req).resp.body "error" = .undefined ∧
    getF (handler env req).resp.body "debug" = .undefined := by
  unfold handler
  rw [hm, if_neg (by simp)]
  dsimp only
  rw [if_neg (not_validation_cond _ hmsg), hkey, if_neg (by simp), hc]
  dsimp only
  rw [hext]
  exact ⟨rfl, rfl, rfl, rfl⟩

/-- Witness for the amended C6 at `envNoText`. -/
theorem claim6_witness :
    (handler envNoText reqOi).resp.status = 200 ∧
    getF (handler envNoText reqOi).resp.body "reply" = .null ∧
    getF (handler envNoText reqOi).resp.body "error" = .undefined ∧
    getF (handler envNoText reqOi).resp.body "debug" = .undefined :=
  claim6_amended_absent_is_success envNoText reqOi rfl (by decide) rfl
    (.obj [("weird", .str "shape")]) rfl rfl

/-- Claim C8: with a configured memory store whose similarity query fails —
the RPC throws and the fallback delivers nothing usable, or the RPC returns
no usable list — the handler still answers 200 with `retrieved_count` 0. -/
theorem claim8_query_failure_swallowed (env : Env) (req : Req)
    (hm : req.method = "POST")
    (hmsg : jsTrim (reqMessage req) ≠ "")
    (hkey : env.openaiKey = true)
    (_hsup : env.supabaseConfigured = true)
    (hfail : rpcYieldsNoList env)
    (p : JSVal) (hc : callResponsesAPI env = .ok p) :
    (handler env req).resp.status = 200 ∧
    getF (handler env req).resp.body "retrieved_count" = .num 0 := by
  unfold handler
  rw [hm, if_neg (by simp)]
  dsimp only
  rw [if_neg (not_validation_cond _ hmsg), hkey, if_neg (by simp), hc]
  dsimp only
  refine ⟨rfl, ?_⟩
  have h0 := retrieveStep_count_zero env hfail
  simp [getF, lookupField, h0]

/-- Environment with a configured store whose RPC and REST fallback are both
down, while the provider answers normally. -/
def envRpcDown : Env :=
  ⟨true, true, .ok (.arr [.num 1]), .error "rpc down", .error "fetch down",
   .ok ⟨true, some (.obj [("output_text", .str "Olá!")])⟩, .ok (), .ok (.obj [])⟩

/-- Witness for C8 at `envRpcDown`. -/
theorem claim8_witness :
    (handler envRpcDown reqOi).resp.status = 200 ∧
    getF (handler envRpcDown reqOi).resp.body "retrieved_count" = .num 0 :=
  claim8_query_failure_swallowed envRpcDown reqOi rfl (by decide) rfl rfl
    (by unfold rpcYieldsNoList; trivial)
    (.obj [("output_text", .str "Olá!")]) rfl

/-- Claim C10: the handler coerces the body's message with `toString` before
validating: a truthy non-string value whose coercion is non-blank passes
validation and is forwarded to the model as that coerced string, a falsy value
(0, false, null, undefined, "") is rejected with 400 before any external call,
and a truthy value coercing to a blank string is likewise rejected. -/
theorem claim10_message_toString_coercion (env : Env) (req : Req) (v : JSVal)
    (hm : req.method = "POST")
    (hv : getF (reqBody req) "message" = v)
    (_hns : isStr v = false)
    (hkey : env.openaiKey = true) :
    (truthy v = true → jsTrim (jsToString v) ≠ "" →
      (handler env req).resp.status ≠ 400 ∧
      (handler env req).sentUser = some (jsToString v)) ∧
    (truthy v = false →
      (handler env req).resp.status = 400 ∧ (handler env req).calls = []) ∧
    (truthy v = true → jsTrim (jsToString v) = "" →
      (handler env req).resp.status = 400 ∧ (handler env req).calls = []) := by
  refine ⟨?_, ?_, ?_⟩
  · intro ht hnb
    have hmsgeq : reqMessage req = jsToString v := by
      unfold reqMessage coerceOr
      rw [hv, ht]
      simp
    unfold handler
    rw [hm, if_neg (by simp)]
    dsimp only
    rw [hmsgeq, if_neg (not_validation_cond _ hnb), hkey, if_neg (by simp)]
    cases hcc : callResponsesAPI env with
    | error e => exact ⟨by simp, rfl⟩
    | ok p => exact ⟨by simp, rfl⟩
  · intro ht
    have hmsgeq : reqMessage req = "" := by
      unfold reqMessage coerceOr
      rw [hv, ht]
      simp
    unfold handler
    rw [hm, if_neg (by simp)]
    dsimp only
    rw [hmsgeq, if_pos (Or.inl rfl)]
    exact ⟨rfl, rfl⟩
  · intro ht hb
    have hmsgeq : reqMessage req = jsToString v := by
      unfold reqMessage coerceOr
      rw [hv, ht]
      simp
    unfold handler
    rw [hm, if_neg (by simp)]
    dsimp only
    rw [hmsgeq, if_pos (Or.inr hb)]
    exact ⟨rfl, rfl⟩

/-- Witness for C10: a plain-object message coerces to "[object Object]" and
passes; the number 0 is falsy and is rejected with 400 and no calls. -/
theorem claim10_witness :
    ((handler envNoText ⟨"POST", .obj [("message", .obj [])]⟩).resp.status ≠ 400 ∧
      (handler envNoText ⟨"POST", .obj [("message", .obj [])]⟩).sentUser =
        some "[object Object]") ∧
    ((handler envNoText ⟨"POST", .obj [("message", .num 0)]⟩).resp.status = 400 ∧
      (handler envNoText ⟨"POST", .obj [("message", .num 0)]⟩).calls = []) :=
  ⟨(claim10_message_toString_coercion envNoText ⟨"POST", .obj [("message", .obj [])]⟩
      (.obj []) rfl rfl rfl rfl).1 rfl (by decide),
   (claim10_message_toString_coercion envNoText ⟨"POST", .obj [("message", .num 0)]⟩
      (.num 0) rfl rfl rfl rfl).2.1 (by decide)⟩
